import Mathlib

/-!
A shallow embedding of the `redes` MIDI sequencer core (domain model,
wait-time algebra, track instruction set, SongLang compiler and cursor VM),
with theorems checking the natural-language specification against it.

Machine integers are modelled as `Nat`/`Int` with explicit `% 2^w` at the
points where the Rust source performs a wrapping cast or where release-mode
overflow wraps.  Fallible Rust code returns `Except`; Rust panics
(`todo!()`, `unwrap()` on errors) are modelled as a distinguished
`panicked` error value.
-/

namespace Redes

/-! ## Domain model (`src/model.rs`, `src/midi.rs`) -/

/-- The 12 chromatic note classes (`model.rs`, `enum NoteClass`). -/
inductive NoteClass where
  | C | Cs | D | Ds | E | F | Fs | G | Gs | A | As | B
deriving DecidableEq, Repr

/-- `NoteClass::as_u8` (`model.rs`). -/
def NoteClass.as_u8 : NoteClass → Nat
  | .C => 0 | .Cs => 1 | .D => 2 | .Ds => 3 | .E => 4 | .F => 5
  | .Fs => 6 | .G => 7 | .Gs => 8 | .A => 9 | .As => 10 | .B => 11

/-- `NoteClass::from_u8` (`model.rs`): keys off `raw % 12`. -/
def NoteClass.from_u8 (raw : Nat) : NoteClass :=
  match raw % 12 with
  | 0 => .C | 1 => .Cs | 2 => .D | 3 => .Ds | 4 => .E | 5 => .F
  | 6 => .Fs | 7 => .G | 8 => .Gs | 9 => .A | 10 => .As | _ => .B

/-- `NoteClass::shift` (`model.rs`).  Rust `%` on `i16` truncates toward
zero, which is `Int.tmod`. -/
def NoteClass.shift (self : NoteClass) (offset : Int) : NoteClass :=
  let raw : Int := (self.as_u8 : Int) + offset
  let clamped : Int := if raw < 0 then 12 + Int.tmod raw 12 else Int.tmod raw 12
  NoteClass.from_u8 clamped.toNat

/-- The list `NoteClass::all()` (`model.rs`). -/
def NoteClass.all : List NoteClass :=
  [.C, .Cs, .D, .Ds, .E, .F, .Fs, .G, .Gs, .A, .As, .B]

instance : Fintype NoteClass where
  elems := Finset.mk (Multiset.ofList NoteClass.all) (by decide)
  complete := by intro x; cases x <;> decide

/-- `Octave` (`model.rs`): a wrapped `i8`. -/
structure Octave where
  raw : Int
deriving DecidableEq, Repr

/-- `Octave::as_raw`. -/
def Octave.as_raw (self : Octave) : Int := self.raw

/-- `Octave::clamp` (`model.rs`). -/
def Octave.clamp (raw : Int) : Octave :=
  Octave.mk (if raw < -1 then -1 else if raw > 9 then 9 else raw)

/-- Reinterpreting-cast of an integer to `u8` (Rust `as u8` of an `i8`
value, and release-mode wrapping into `u8` range). -/
def u8_of_int (x : Int) : Nat := (x % 256).toNat

/-- `MidiNote` (`midi.rs`): a wrapped `u8` payload.  The checked
constructors keep `raw ≤ 127`, but `from_note_octave` builds the value
directly. -/
structure MidiNote where
  raw : Nat
deriving DecidableEq, Repr

/-- `MidiNote::as_u8`. -/
def MidiNote.as_u8 (self : MidiNote) : Nat := self.raw

/-- `MidiNote::from_raw` (`midi.rs`): rejects values `≥ 128`. -/
def MidiNote.from_raw (raw : Nat) : Option MidiNote :=
  if raw ≥ 128 then none else some (MidiNote.mk raw)

/-- `MidiNote::from_note_octave` (`midi.rs`).  All arithmetic is `u8`
arithmetic: `(octave.as_raw() + 1) as u8`, then `midi_octave * 12`, then
`octave_base + note_offset`.  The additions and the multiplication cannot
exceed 255 for octaves in the clamped range `[-1, 9]`, but the final value
is *not* checked against 127. -/
def MidiNote.from_note_octave (note : NoteClass) (octave : Octave) : MidiNote :=
  let midi_octave : Nat := u8_of_int (octave.as_raw + 1)
  let octave_base : Nat := midi_octave * 12 % 256
  MidiNote.mk ((octave_base + note.as_u8) % 256)

/-- `MidiNote::wrapping_add` (`midi.rs`): widen to `i16`, add, then wrap
into `[0, 128)` by a single conditional `+128` and a single conditional
`-128`, and cast back to `u8`. -/
def MidiNote.wrapping_add (self : MidiNote) (steps : Int) : MidiNote :=
  let inner : Int := (self.raw : Int)
  let added : Int := inner + steps
  let adjusted : Int := if added < 0 then added + 128 else added
  let wrapped : Int := if adjusted ≥ 128 then adjusted - 128 else adjusted
  MidiNote.mk (u8_of_int wrapped)

/-- `PressVelocity` (`midi.rs`): wrapped `u8`, `≤ 127` by construction. -/
structure PressVelocity where
  value : Nat
deriving DecidableEq, Repr

/-- `PressVelocity::from_raw`. -/
def PressVelocity.from_raw (raw : Nat) : Option PressVelocity :=
  if raw > 127 then none else some (PressVelocity.mk raw)

/-- `MidiChannel` (`midi.rs`): wrapped `u8` in `0..=15`. -/
structure MidiChannel where
  raw : Nat
deriving DecidableEq, Repr

/-- `MidiChannel::default()` is channel 0. -/
def MidiChannel.default : MidiChannel := MidiChannel.mk 0

/-- `RawMessage` (`midi.rs`): three raw bytes. -/
structure RawMessage where
  bytes : Nat × Nat × Nat
deriving DecidableEq, Repr

/-- `NoteOn` (`midi/notes.rs`). -/
structure NoteOn where
  channel : MidiChannel
  note : MidiNote
  vel : PressVelocity
deriving DecidableEq, Repr

/-- `NoteOn::new`. -/
def NoteOn.new (channel : MidiChannel) (note : MidiNote) (vel : PressVelocity) : NoteOn :=
  NoteOn.mk channel note vel

/-- `NoteOff` (`midi/notes.rs`). -/
structure NoteOff where
  channel : MidiChannel
  note : MidiNote
  vel : PressVelocity
deriving DecidableEq, Repr

/-- `MidiMessage` (`midi.rs`). -/
inductive MidiMessage where
  | NoteOn (data : NoteOn)
  | NoteOff (data : NoteOff)
  | Other (data : RawMessage)
deriving DecidableEq, Repr

/-! ## `NoteKey` (`src/model.rs`) -/

/-- `NoteKey` (`model.rs`): bit layout `0rrr_nnnn_nnnn_nnnn` in a `u16`:
the high nibble is the root note number, bit `k` of the low 12 bits says
the class with number `k` is in the key. -/
structure NoteKey where
  notes_with_root : Nat
deriving DecidableEq, Repr

/-- `NOTES_MASK` (`model.rs`). -/
def NOTES_MASK : Nat := 0x0FFF

/-- `ROOT_MASK` (`model.rs`). -/
def ROOT_MASK : Nat := 0xF000

/-- `NoteKey::with_note`. -/
def NoteKey.with_note (self : NoteKey) (note : NoteClass) : NoteKey :=
  NoteKey.mk (self.notes_with_root ||| (1 <<< note.as_u8))

/-- `NoteKey::without_note` — `!mask` on a `u16` is XOR with `0xFFFF`. -/
def NoteKey.without_note (self : NoteKey) (note : NoteClass) : NoteKey :=
  NoteKey.mk (self.notes_with_root &&& ((1 <<< note.as_u8) ^^^ 0xFFFF))

/-- `NoteKey::empty`. -/
def NoteKey.empty : NoteKey := NoteKey.mk 0

/-- `NoteKey::major` (`model.rs`): root recorded in the high nibble, then
the classes at offsets 0, 2, 4, 5, 7, 9, 11 from the root. -/
def NoteKey.major (root : NoteClass) : NoteKey :=
  let start := NoteKey.mk (NoteKey.empty.notes_with_root ||| (root.as_u8 <<< 12))
  ((((((start.with_note root).with_note
      (root.shift 2)).with_note
      (root.shift 4)).with_note
      (root.shift 5)).with_note
      (root.shift 7)).with_note
      (root.shift 9)).with_note
      (root.shift 11)

/-- `NoteKey::minor` (`model.rs`): start from major, flip offsets 4→3,
9→8, 11→10. -/
def NoteKey.minor (root : NoteClass) : NoteKey :=
  ((((((NoteKey.major root).without_note (root.shift 4)).with_note
      (root.shift 3)).without_note (root.shift 9)).with_note
      (root.shift 8)).without_note (root.shift 11)).with_note
      (root.shift 10)

/-- `NoteKey::equivalent` (`model.rs`): compare low-12-bit note sets. -/
def NoteKey.equivalent (self other : NoteKey) : Bool :=
  (self.notes_with_root &&& NOTES_MASK) == (other.notes_with_root &&& NOTES_MASK)

/-- `NoteKey::root` (`model.rs`). -/
def NoteKey.root (self : NoteKey) : NoteClass :=
  NoteClass.from_u8 ((self.notes_with_root &&& ROOT_MASK) >>> 12)

/-- `NoteKey::contains` (`model.rs`). -/
def NoteKey.contains (self : NoteKey) (note : NoteClass) : Bool :=
  (self.notes_with_root &&& (1 <<< note.as_u8)) != 0

/-- `NoteKey::len` (`model.rs`): `count_ones` of the masked `u16`
(the mask zeroes bits 12–15, so bits 0–15 of the masked value are
exactly bits 0–11 of the note set). -/
def NoteKey.len (self : NoteKey) : Nat :=
  ((List.range 16).filter (fun k => (self.notes_with_root &&& NOTES_MASK).testBit k)).length

/-- The inner `while !self.contains(note.shift(1)) { note = note.shift(1) }`
walk of `NoteKey::nth` followed by the final `note.shift(1)`: returns the
first class strictly above `note` (chromatically) that lies in the key.
Fuel-bounded: the Rust loop never terminates on a key with no members, a
state the compiler never builds (its keys always have 7 notes). -/
def NoteKey.next_in_key (self : NoteKey) : Nat → NoteClass → NoteClass
  | 0, note => note.shift 1
  | fuel + 1, note =>
    if self.contains (note.shift 1) then note.shift 1
    else self.next_in_key fuel (note.shift 1)

/-- The outer `loop` of `NoteKey::nth`: walk `mapped` key-steps up from
the root.  Fuel-bounded for the same reason as `next_in_key`; fuel 16
covers every `mapped_step` value (`mapped_step ≤ len ≤ 12`). -/
def NoteKey.nth_go (self : NoteKey) (mapped : Int) : Nat → Int → NoteClass → NoteClass
  | 0, _, note => note
  | fuel + 1, step, note =>
    if mapped ≤ step then note
    else self.nth_go mapped fuel (step + 1) (self.next_in_key 24 note)

/-- `NoteKey::nth` (`model.rs`).  Rust `%` on `isize` is truncation
(`Int.tmod`); negative steps are mapped by `len + (keystep % len)`.
(On an empty key the Rust code would divide by zero and panic; the
compiler only calls this on 7-note keys.) -/
def NoteKey.nth (self : NoteKey) (keystep : Int) : NoteClass :=
  let len : Int := (self.len : Int)
  let mapped_step : Int :=
    if keystep < 0 then len + Int.tmod keystep len else Int.tmod keystep len
  self.nth_go mapped_step 16 0 self.root

/-! ## Wait-time algebra and track instructions (`src/track/instructions.rs`)

Durations are modelled as their nanosecond count (`std::time::Duration`
round-trips exactly through `Duration::from_nanos` / `as_nanos` for every
value the source builds). -/

/-- `2^64`, the wrap modulus of Rust `u64` arithmetic in release mode. -/
def U64_MOD : Nat := 18446744073709551616

/-- `NANOS_PER_MINUTE` (`track/instructions.rs`). -/
def NANOS_PER_MINUTE : Nat := 60 * 1000 * 1000 * 1000

/-- `BpmInfo` (`track/instructions.rs`): two `NonZeroU16` fields,
modelled as `Nat` with the range invariants carried as hypotheses. -/
structure BpmInfo where
  beats_per_minute : Nat
  ticks_per_beat : Nat
deriving DecidableEq, Repr

/-- `BpmInfo::default()`: 120 beats per minute, 32 ticks per beat. -/
def BpmInfo.default : BpmInfo := BpmInfo.mk 120 32

/-- `BpmInfo::nanos_per_beat`: `u64` division, truncating. -/
def BpmInfo.nanos_per_beat (self : BpmInfo) : Nat :=
  NANOS_PER_MINUTE / self.beats_per_minute

/-- `BpmInfo::nanos_per_tick`: `u64` division, truncating. -/
def BpmInfo.nanos_per_tick (self : BpmInfo) : Nat :=
  self.nanos_per_beat / self.ticks_per_beat

/-- `BpmInfo::tick_duration` as its nanosecond count. -/
def BpmInfo.tick_duration (self : BpmInfo) : Nat := self.nanos_per_tick

/-- `clamped_to_nonzerou16` (`track/instructions.rs`): clamp a `u128`
into `[1, 65535]`. -/
def clamped_to_nonzerou16 (raw : Nat) : Nat :=
  if raw > 65535 then 65535 else if raw == 0 then 1 else raw

/-- `WaitTime` (`track/instructions.rs`).  `Clock` carries a duration in
nanoseconds; `Beats` and `Ticks` carry `NonZeroU16` payloads modelled as
`Nat`. -/
inductive WaitTime where
  | Clock (nanos : Nat)
  | Beats (n : Nat)
  | Ticks (n : Nat)
deriving DecidableEq, Repr

/-- `WaitTime::as_ticks` (`track/instructions.rs`).  In the `Beats` arm
the source multiplies the two `u16` values *as `u16`s* (release-mode
wrap at `2^16`) before the `as u128` cast feeding the clamp; the `Clock`
arm divides in `u128`.  (If `nanos_per_tick` were 0 the Rust division
would panic; it is ≥ 13 for every `u16`-valued `BpmInfo`.) -/
def WaitTime.as_ticks (self : WaitTime) (bpm_info : BpmInfo) : Nat :=
  match self with
  | .Ticks ticks => ticks
  | .Clock dur => clamped_to_nonzerou16 (dur / bpm_info.tick_duration)
  | .Beats b => clamped_to_nonzerou16 ((b * bpm_info.ticks_per_beat) % 65536)

/-- `WaitTime::as_duration` (`track/instructions.rs`).  The `u128 → u64`
cast of `tick_duration().as_nanos()` is lossless (`nanos_per_tick ≤
6·10^10 < 2^64`); the final `u64` multiplication wraps at `2^64`.
In the `Beats` arm the tick product is computed in `u64` from two `u16`s
and cannot wrap. -/
def WaitTime.as_duration (self : WaitTime) (bpm_info : BpmInfo) : Nat :=
  match self with
  | .Beats b =>
    let ticks := bpm_info.ticks_per_beat * b
    bpm_info.tick_duration * ticks % U64_MOD
  | .Clock dur => dur
  | .Ticks ticks => bpm_info.tick_duration * ticks % U64_MOD

/-- `OutputPort` (`track/instructions.rs`): an opaque `u128` index. -/
structure OutputPort where
  idx : Nat
deriving DecidableEq, Repr

/-- `From<usize> for OutputPort`. -/
def OutputPort.from_usize (inner : Nat) : OutputPort := OutputPort.mk inner

/-- `TrackEvent` (`track/instructions.rs`): the five-opcode VM language.
`Jump.count` is an optional `NonZeroU16`. -/
inductive TrackEvent where
  | SendMessage (message : MidiMessage) (port : OutputPort)
  | Wait (time : WaitTime)
  | SetBpm (info : BpmInfo)
  | Jump (target : Nat) (count : Option Nat)
  | End
deriving DecidableEq, Repr

/-! ## Cursor VM (`src/track/cursor.rs`) -/

/-- `EventTrack::finite_jumps` (`track.rs`): the `(index, count)` pairs of
the `Jump { count: Some(_) }` instructions, in index order. -/
def finite_jumps (track : List TrackEvent) : List (Nat × Nat) :=
  track.enum.filterMap fun p =>
    match p.2 with
    | .Jump _ (some cnt) => some (p.1, cnt)
    | _ => none

/-- `JumpCounts` (`track/cursor.rs`): a map from jump-instruction index to
its residual counter, plus the maximum valid jump target.  The `HashMap`
is modelled as an association list with distinct keys. -/
structure JumpCounts where
  max_target : Nat
  data : List (Nat × Nat)
deriving DecidableEq, Repr

/-- `JumpCounts::from_iter`. -/
def JumpCounts.from_iter (track_len : Nat) (itr : List (Nat × Nat)) : JumpCounts :=
  JumpCounts.mk (track_len - 1) itr

/-- Write-through of `HashMap::get_mut` assignment on the association
list: replace the value stored at key `k`. -/
def assoc_set (l : List (Nat × Nat)) (k v : Nat) : List (Nat × Nat) :=
  l.map fun p => if p.1 == k then (k, v) else p

/-- `StepError` (`track/cursor.rs`). -/
inductive StepError where
  | BadJumpTarget (target : Nat)
  | JumpIdxNotFound (target : Nat)
  | BadInstrPointer (ip : Nat)
deriving DecidableEq, Repr

/-- `StepOutput` (`track/cursor.rs`). -/
inductive StepOutput where
  | End
  | Continue
  | Message (time : Nat) (port : OutputPort) (msg : MidiMessage)
deriving DecidableEq, Repr

/-- `JumpCounts::do_jump` (`track/cursor.rs`): bounds-check the target;
a counter-less jump is always taken; a counted jump falls through and
resets its residual to `count` when the residual is 0, otherwise
decrements the residual and is taken. -/
def JumpCounts.do_jump (self : JumpCounts) (idx target : Nat) (count : Option Nat) :
    Except StepError (Nat × JumpCounts) :=
  if target > self.max_target then .error (.BadJumpTarget target)
  else
    match count with
    | none => .ok (target, self)
    | some n =>
      match self.data.lookup idx with
      | none => .error (.JumpIdxNotFound idx)
      | some cur_count =>
        if cur_count == 0 then
          .ok (idx + 1, JumpCounts.mk self.max_target (assoc_set self.data idx n))
        else
          .ok (target, JumpCounts.mk self.max_target (assoc_set self.data idx (cur_count - 1)))

/-- `TrackCursor` (`track/cursor.rs`), with the track data inlined as a
`List TrackEvent` (the blanket `EventTrack` impl over slices). -/
structure TrackCursor where
  instruction_pointer : Nat
  cur_bpm : BpmInfo
  cur_time : Nat
  cur_ticks : Nat
  jump_counts : JumpCounts
  data : List TrackEvent
deriving DecidableEq, Repr

/-- `TrackCursor::new`. -/
def TrackCursor.new (data : List TrackEvent) : TrackCursor :=
  TrackCursor.mk 0 BpmInfo.default 0 0
    (JumpCounts.from_iter data.length (finite_jumps data)) data

/-- `TrackCursor::step` (`track/cursor.rs`).  `End` does not advance the
instruction pointer; `Wait` adds to the clock (`Duration` addition) and
to the `u16` tick counter (wrapping at `2^16` in release mode). -/
def TrackCursor.step (self : TrackCursor) : Except StepError (StepOutput × TrackCursor) :=
  match self.data.get? self.instruction_pointer with
  | none => .error (.BadInstrPointer self.instruction_pointer)
  | some .End => .ok (.End, self)
  | some (.SetBpm new_info) =>
    .ok (.Continue,
      { self with cur_bpm := new_info,
                  instruction_pointer := self.instruction_pointer + 1 })
  | some (.SendMessage message port) =>
    .ok (.Message self.cur_time port message,
      { self with instruction_pointer := self.instruction_pointer + 1 })
  | some (.Wait time) =>
    .ok (.Continue,
      { self with instruction_pointer := self.instruction_pointer + 1,
                  cur_time := self.cur_time + time.as_duration self.cur_bpm,
                  cur_ticks := (self.cur_ticks + time.as_ticks self.cur_bpm) % 65536 })
  | some (.Jump target count) =>
    match self.jump_counts.do_jump self.instruction_pointer target count with
    | .error e => .error e
    | .ok (new_pc, jc) =>
      .ok (.Continue, { self with instruction_pointer := new_pc, jump_counts := jc })

/-- The loop body of `TrackCursor::step_until` (`track/cursor.rs`),
collected into the list of `(time, port, message)` triples the iterator
yields: stop when `cur_time > end` or at `End`; a `step()` error is the
iterator's `.unwrap()` panic, surfaced as `Except.error`.  The source
loop is unbounded; `fuel` bounds the number of `step()` calls and every
theorem quantifies over all sufficiently large fuels. -/
def step_until_go : Nat → TrackCursor → Nat →
    Except StepError (List (Nat × OutputPort × MidiMessage))
  | 0, _, _ => .ok []
  | fuel + 1, c, endt =>
    if c.cur_time > endt then .ok []
    else
      match c.step with
      | .error e => .error e
      | .ok (.End, _) => .ok []
      | .ok (.Message t p m, c2) => (step_until_go fuel c2 endt).map fun rest => (t, p, m) :: rest
      | .ok (.Continue, c2) => step_until_go fuel c2 endt

/-- `TrackCursor::step_until(end)`, as the full list of messages the
returned iterator yields (given enough fuel). -/
def TrackCursor.step_until (fuel : Nat) (self : TrackCursor) (endt : Nat) :
    Except StepError (List (Nat × OutputPort × MidiMessage)) :=
  step_until_go fuel self endt

/-! ## SongLang AST (`src/songlang/ast.rs`) -/

/-- `OutputLabel` (`songlang/ast.rs`): a wrapped string. -/
def OutputLabel := String
deriving instance DecidableEq, BEq, Repr for OutputLabel

/-- `ONE_NZU16` (`utils.rs`). -/
def ONE_NZU16 : Nat := 1

/-- `WaitTime::Ticks(ONE_NZU16)`, the one-tick wait. -/
def one_tick : WaitTime := WaitTime.Ticks ONE_NZU16

/-- `AsmCommand` (`songlang/ast.rs`). -/
inductive AsmCommand where
  | Wait (dur : WaitTime)
  | Send (message : MidiMessage) (port : Option OutputLabel)
  | Jump (label : String) (count : Option Nat)
  | SetBpm (info : BpmInfo)
  | Label (name : String)
deriving DecidableEq, Repr

/-- `PressVelocity`/`MidiChannel`/`WaitTime`/`OutputLabel` press
modifiers (`songlang/ast.rs`, `enum PressModifier`). -/
inductive PressModifier where
  | Velocity (v : PressVelocity)
  | Channel (c : MidiChannel)
  | Duration (d : WaitTime)
  | Port (lbl : OutputLabel)
deriving DecidableEq, Repr

/-- `ChordKind` (`songlang/ast.rs`). -/
inductive ChordKind where
  | Raw | Fifth | Major | Minor | Major7 | Minor7
deriving DecidableEq, Repr

instance : Fintype ChordKind where
  elems := Finset.mk (Multiset.ofList [.Raw, .Fifth, .Major, .Minor, .Major7, .Minor7]) (by decide)
  complete := by intro x; cases x <;> decide

/-- `ChordPress` (`songlang/ast.rs`). -/
structure ChordPress where
  root : NoteClass
  octave : Octave
  kind : ChordKind
  modifiers : List PressModifier
deriving DecidableEq, Repr

/-- `PressLine` (`songlang/ast.rs`). -/
structure PressLine where
  presses : List ChordPress
  modifiers : List PressModifier
deriving DecidableEq, Repr

/-- `SongAttribute` (`songlang/ast.rs`). -/
inductive SongAttribute where
  | Signature (info : BpmInfo)
  | DefaultDuration (d : WaitTime)
  | DefaultChannel (c : MidiChannel)
  | DefaultPort (lbl : OutputLabel)
  | DefaultPressVelocity (v : PressVelocity)
deriving DecidableEq, Repr

/-- `LangItem` (`songlang/ast.rs`).  `Loop.repititions` is an optional
`NonZeroU16` (spelling as in the source). -/
inductive LangItem where
  | Loop (repititions : Option Nat) (expr : List LangItem)
  | NotePress (data : PressLine)
  | Wait (dur : WaitTime)
  | Asm (cmd : AsmCommand)
  | SetAttribute (attr : SongAttribute)

/-- `PressLine::port` — first `Port` modifier, if any (`find_map`). -/
def PressLine.port (self : PressLine) : Option OutputLabel :=
  self.modifiers.findSome? fun md =>
    match md with | .Port lbl => some lbl | _ => none

/-- `PressLine::channel`. -/
def PressLine.channel (self : PressLine) : Option MidiChannel :=
  self.modifiers.findSome? fun md =>
    match md with | .Channel c => some c | _ => none

/-- `PressLine::velocity`. -/
def PressLine.velocity (self : PressLine) : Option PressVelocity :=
  self.modifiers.findSome? fun md =>
    match md with | .Velocity v => some v | _ => none

/-- `PressLine::duration`. -/
def PressLine.duration (self : PressLine) : Option WaitTime :=
  self.modifiers.findSome? fun md =>
    match md with | .Duration d => some d | _ => none

/-- `ChordPress::port`. -/
def ChordPress.port (self : ChordPress) : Option OutputLabel :=
  self.modifiers.findSome? fun md =>
    match md with | .Port lbl => some lbl | _ => none

/-- `ChordPress::channel`. -/
def ChordPress.channel (self : ChordPress) : Option MidiChannel :=
  self.modifiers.findSome? fun md =>
    match md with | .Channel c => some c | _ => none

/-- `ChordPress::velocity`. -/
def ChordPress.velocity (self : ChordPress) : Option PressVelocity :=
  self.modifiers.findSome? fun md =>
    match md with | .Velocity v => some v | _ => none

/-- `ChordPress::duration`. -/
def ChordPress.duration (self : ChordPress) : Option WaitTime :=
  self.modifiers.findSome? fun md =>
    match md with | .Duration d => some d | _ => none

/-! ## Compiler (`src/songlang/compiler.rs`) -/

/-- `CompilerError` (`songlang/compiler.rs`). -/
inductive CompilerError where
  | LabelNotFound (label : String)
  | DuplicateLabel (label : String) (first_location second_location : Nat)
  | AttributeOutsideHeader (attr : SongAttribute)
  | DuplicateAttributes (prev next : SongAttribute)
deriving DecidableEq, Repr

/-- A compilation outcome: either a `CompilerError` the source returns,
or a Rust panic (`todo!()` and friends) the source would abort with. -/
inductive CompileFailure where
  | err (e : CompilerError)
  | panicked (msg : String)
deriving DecidableEq, Repr

/-- `SongAttributes` (`songlang/compiler.rs`). -/
structure SongAttributes where
  press_dur : Option WaitTime := none
  press_vel : Option PressVelocity := none
  bpm : Option BpmInfo := none
  channel : Option MidiChannel := none
  outport : Option OutputLabel := none
deriving DecidableEq, Repr

/-- `SongAttributes::default_duration`: one tick. -/
def SongAttributes.default_duration (self : SongAttributes) : WaitTime :=
  self.press_dur.getD one_tick

/-- `SongAttributes::default_velocity`: `PressVelocity::from_raw(90).unwrap()`. -/
def SongAttributes.default_velocity (self : SongAttributes) : PressVelocity :=
  self.press_vel.getD (PressVelocity.mk 90)

/-- `SongAttributes::default_channel`: channel 0. -/
def SongAttributes.default_channel (self : SongAttributes) : MidiChannel :=
  self.channel.getD MidiChannel.default

/-- `SongAttributes::default_port`. -/
def SongAttributes.default_port (self : SongAttributes) : Option OutputLabel :=
  self.outport

/-- `SongAttributes::push_attribute` (`songlang/compiler.rs`): record the
attribute, failing with `DuplicateAttributes` when its field is already
set. -/
def SongAttributes.push_attribute (self : SongAttributes) (attr : SongAttribute) :
    Except CompilerError SongAttributes :=
  match attr with
  | .DefaultDuration dur =>
    match self.press_dur with
    | some prev => .error (.DuplicateAttributes (.DefaultDuration prev) (.DefaultDuration dur))
    | none => .ok { self with press_dur := some dur }
  | .DefaultPressVelocity vel =>
    match self.press_vel with
    | some prev =>
      .error (.DuplicateAttributes (.DefaultPressVelocity prev) (.DefaultPressVelocity vel))
    | none => .ok { self with press_vel := some vel }
  | .Signature bpm =>
    match self.bpm with
    | some prev => .error (.DuplicateAttributes (.Signature prev) (.Signature bpm))
    | none => .ok { self with bpm := some bpm }
  | .DefaultPort outport =>
    match self.outport with
    | some prev => .error (.DuplicateAttributes (.DefaultPort prev) (.DefaultPort outport))
    | none => .ok { self with outport := some outport }
  | .DefaultChannel chan =>
    match self.channel with
    | some prev => .error (.DuplicateAttributes (.DefaultChannel prev) (.DefaultChannel chan))
    | none => .ok { self with channel := some chan }

/-- `Compiler` (`songlang/compiler.rs`).  The `HashMap` fields are
modelled as association lists in insertion order (all keys distinct by
construction). -/
structure Compiler where
  attributes : SongAttributes := {}
  tick_spans : List (Nat × WaitTime) := []
  jump_fix_backlog : List (Nat × String) := []
  ports : List (Option OutputLabel × OutputPort) := []
  labels : List (String × Nat) := []
  track : List TrackEvent := []
deriving Repr

/-- `Compiler::new`. -/
def Compiler.new : Compiler := {}

/-- `Compiler::port_label_to_idx` (`songlang/compiler.rs`): the entry-or-
insert on the port table, binding an unseen label (the `None` label
included) to the next dense index `ports.len()`. -/
def Compiler.port_label_to_idx (self : Compiler) (port : Option OutputLabel) :
    OutputPort × Compiler :=
  match self.ports.lookup port with
  | some idx => (idx, self)
  | none =>
    let defaultidx := OutputPort.from_usize self.ports.length
    (defaultidx, { self with ports := self.ports ++ [(port, defaultidx)] })

/-- `usize::max_value()`, the placeholder target of an unresolved jump. -/
def USIZE_MAX : Nat := 18446744073709551615

/-- `chord offsets` table in `Compiler::encounter_pressline`. -/
def chord_offsets : ChordKind → List Int
  | .Raw => [0]
  | .Fifth => [0, 4]
  | .Major | .Minor => [0, 2, 4]
  | .Major7 | .Minor7 => [0, 2, 4, 7]

/-- `key` selection in `Compiler::encounter_pressline`: minor for the
minor chord kinds, major otherwise. -/
def chord_key (kind : ChordKind) (root : NoteClass) : NoteKey :=
  match kind with
  | .Minor | .Minor7 => NoteKey.minor root
  | .Major | .Major7 | .Raw | .Fifth => NoteKey.major root

/-- The pitch-resolution loop of `Compiler::encounter_pressline`: walk
the offsets; each candidate pitch is `from_note_octave(key.nth(offset),
octave)`, bumped an octave by `wrapping_add(12)` when it is below the
previous pitch. -/
def chord_walk (key : NoteKey) (octave : Octave) (prev : MidiNote) :
    List Int → List MidiNote
  | [] => []
  | offset :: rest =>
    let cur0 := MidiNote.from_note_octave (key.nth offset) octave
    let cur := if cur0.raw < prev.raw then cur0.wrapping_add 12 else cur0
    cur :: chord_walk key octave cur rest

/-- The emitted pitch sequence of one `ChordPress` (the `prev_pitch`
walk of `Compiler::encounter_pressline` starts at the root pitch). -/
def chord_pitches (press : ChordPress) : List MidiNote :=
  chord_walk (chord_key press.kind press.root) press.octave
    (MidiNote.from_note_octave press.root press.octave)
    (chord_offsets press.kind)

/-- `Compiler::encounter_pressline` (`songlang/compiler.rs`):
resolve per-press modifiers (press, then line, then compiler default),
assign the output port, emit one `SendMessage(NoteOn)` per resolved
chord pitch (recording a tick span for each), and close the line with a
single `Wait(Ticks(1))`.  The source function can never return an
error. -/
def Compiler.encounter_pressline (self : Compiler) (data : PressLine) : Compiler :=
  let line_duration := data.duration
  let line_vel := data.velocity
  let line_channel := data.channel
  let line_port := data.port
  let step := fun (c : Compiler) (press : ChordPress) =>
    let channel := (press.channel.or line_channel).getD c.attributes.default_channel
    let vel := (press.velocity.or line_vel).getD c.attributes.default_velocity
    let duration := (press.duration.or line_duration).getD c.attributes.default_duration
    let portlbl := (press.port.or line_port).or c.attributes.default_port
    let (port, c) := c.port_label_to_idx portlbl
    (chord_pitches press).foldl
      (fun (c : Compiler) (cur_pitch : MidiNote) =>
        let noteon := NoteOn.new channel cur_pitch vel
        let evt := TrackEvent.SendMessage (MidiMessage.NoteOn noteon) port
        { c with tick_spans := c.tick_spans ++ [(c.track.length, duration)],
                 track := c.track ++ [evt] })
      c
  let c := data.presses.foldl step self
  { c with track := c.track ++ [TrackEvent.Wait one_tick] }

/-- `Compiler::encounter_jump` (`songlang/compiler.rs`): a known label is
used directly; an unknown one gets the placeholder target and a fix-up
log entry. -/
def Compiler.encounter_jump (self : Compiler) (count : Option Nat) (label : String) :
    Compiler :=
  match self.labels.lookup label with
  | some target =>
    { self with track := self.track ++ [TrackEvent.Jump target count] }
  | none =>
    { self with
        jump_fix_backlog := self.jump_fix_backlog ++ [(self.track.length, label)],
        track := self.track ++ [TrackEvent.Jump USIZE_MAX count] }

/-- `Compiler::encounter_setlabel` (`songlang/compiler.rs`). -/
def Compiler.encounter_setlabel (self : Compiler) (lbl : String) :
    Except CompilerError Compiler :=
  let target := self.track.length
  match self.labels.lookup lbl with
  | some p => .error (.DuplicateLabel lbl p target)
  | none => .ok { self with labels := self.labels ++ [(lbl, target)] }

/-- `Compiler::encounter_setattr` (`songlang/compiler.rs`): the header
discipline is keyed on the *first* track event.  An empty track records
the attribute (emitting `SetBpm` for a signature); a track whose first
event is the equal signature `SetBpm` silently accepts a repeated equal
signature, and records any non-signature attribute; anything else is
`AttributeOutsideHeader`. -/
def Compiler.encounter_setattr (self : Compiler) (attr : SongAttribute) :
    Except CompilerError Compiler :=
  let new_bpm : Option BpmInfo :=
    match attr with | .Signature bpm => some bpm | _ => none
  match self.track.head? with
  | none =>
    match self.attributes.push_attribute attr with
    | .error e => .error e
    | .ok attrs =>
      let c := { self with attributes := attrs }
      match new_bpm with
      | some bpm => .ok { c with track := c.track ++ [TrackEvent.SetBpm bpm] }
      | none => .ok c
  | some (TrackEvent.SetBpm old_bpm) =>
    if new_bpm == some old_bpm then .ok self
    else if new_bpm.isNone then
      match self.attributes.push_attribute attr with
      | .error e => .error e
      | .ok attrs => .ok { self with attributes := attrs }
    else .error (.AttributeOutsideHeader attr)
  | some _ => .error (.AttributeOutsideHeader attr)

mutual

/-- `Compiler::compile_item` (`songlang/compiler.rs`).  The `Loop` arm is
`Compiler::encounter_loop`: `count = repetitions.map(|n| max(n−1, 1))`
(the `checked_sub(1).and_then(NonZeroU16::new).unwrap_or(1)` chain), the
jump target is the track length before the body, and the `Jump` is
appended after the compiled body. -/
def Compiler.compile_item (self : Compiler) : LangItem → Except CompileFailure Compiler
  | .Loop repititions expr =>
    let count := repititions.map fun n => max (n - 1) 1
    let target := self.track.length
    match Compiler.compile_items self expr with
    | .error e => .error e
    | .ok c => .ok { c with track := c.track ++ [TrackEvent.Jump target count] }
  | .NotePress data => .ok (self.encounter_pressline data)
  | .Wait dur => .ok { self with track := self.track ++ [TrackEvent.Wait dur] }
  | .Asm (.Wait dur) => .ok { self with track := self.track ++ [TrackEvent.Wait dur] }
  | .Asm (.SetBpm bpm) => .ok { self with track := self.track ++ [TrackEvent.SetBpm bpm] }
  | .Asm (.Label lbl) => (self.encounter_setlabel lbl).mapError CompileFailure.err
  | .Asm (.Send message port) =>
    let (portidx, c) := self.port_label_to_idx port
    .ok { c with track := c.track ++ [TrackEvent.SendMessage message portidx] }
  | .Asm (.Jump label count) => .ok (self.encounter_jump count label)
  | .SetAttribute attr => (self.encounter_setattr attr).mapError CompileFailure.err

/-- The item loop of `compile_song` and of `Compiler::encounter_loop`'s
body pass: thread the compiler through the items, stopping at the first
failure. -/
def Compiler.compile_items (self : Compiler) : List LangItem → Except CompileFailure Compiler
  | [] => .ok self
  | itm :: rest =>
    match Compiler.compile_item self itm with
    | .error e => .error e
    | .ok c => Compiler.compile_items c rest

end

/-- The per-entry body of `Compiler::resolve_jumps` (`songlang/compiler.rs`)
folded over the fix-up log: look the label up (`LabelNotFound` when
missing) and rewrite the logged instruction's jump target; a logged index
that does not hold a `Jump` hits the `todo!()` panic. -/
def resolve_jumps_go (labels : List (String × Nat)) :
    List (Nat × String) → List TrackEvent → Except CompileFailure (List TrackEvent)
  | [], track => .ok track
  | (instr_idx, lbl) :: rest, track =>
    match labels.lookup lbl with
    | none => .error (.err (.LabelNotFound lbl))
    | some new_target =>
      match track.get? instr_idx with
      | some (TrackEvent.Jump _ count) =>
        resolve_jumps_go labels rest (track.set instr_idx (TrackEvent.Jump new_target count))
      | _ => .error (.panicked "Bad jump resolution")

/-- `Compiler::resolve_jumps` (`songlang/compiler.rs`), draining the
fix-up log. -/
def Compiler.resolve_jumps (self : Compiler) : Except CompileFailure Compiler :=
  match resolve_jumps_go self.labels self.jump_fix_backlog self.track with
  | .error e => .error e
  | .ok track => .ok { self with track := track, jump_fix_backlog := [] }

/-- `Compiler::resolve_tickspans` (`songlang/compiler.rs`): after sorting,
the `while let` pop loop runs `todo!()` on its first iteration, so the
function panics whenever any tick span was recorded (that is, whenever
any press line was compiled) and is a no-op otherwise. -/
def Compiler.resolve_tickspans (self : Compiler) : Except CompileFailure Compiler :=
  if self.tick_spans.isEmpty then .ok self
  else .error (.panicked "not yet implemented")

/-- The stages of `compile_song` (`songlang/compiler.rs`) up to and
including `resolve_jumps`: compile every item, append the `End`
terminator, and rewrite forward jumps.  This is the track the compiler
has assembled when it enters the (unimplemented) tick-span pass. -/
def compile_song_assembled (song : List LangItem) : Except CompileFailure Compiler :=
  match Compiler.new.compile_items song with
  | .error e => .error e
  | .ok c => Compiler.resolve_jumps { c with track := c.track ++ [TrackEvent.End] }

/-- `compile_song` (`songlang/compiler.rs`): the assembled track is fed
through `resolve_tickspans`, and the track plus port table returned. -/
def compile_song (song : List LangItem) :
    Except CompileFailure (List TrackEvent × List (Option OutputLabel × OutputPort)) :=
  match compile_song_assembled song with
  | .error e => .error e
  | .ok c =>
    match c.resolve_tickspans with
    | .error e => .error e
    | .ok c => .ok (c.track, c.ports)

/-! ## Concrete claim inputs -/

/-- The `ChordPress` for `c4`: root C, octave 4, `Raw`, no modifiers. -/
def press_c4 : ChordPress := ChordPress.mk NoteClass.C (Octave.mk 4) ChordKind.Raw []

/-- The `PressLine` for `play c4`. -/
def line_c4 : PressLine := PressLine.mk [press_c4] []

/-- The one-item song `play c4`. -/
def song_c4 : List LangItem := [LangItem.NotePress line_c4]

/-- The `NoteOn{channel 0, note 60, velocity 90}` MIDI message. -/
def msg_c4 : MidiMessage :=
  MidiMessage.NoteOn (NoteOn.mk (MidiChannel.mk 0) (MidiNote.mk 60) (PressVelocity.mk 90))

/-- The `SendMessage` event the compiler emits for `play c4`. -/
def send_c4 : TrackEvent := TrackEvent.SendMessage msg_c4 (OutputPort.mk 0)

/-- The three-event track scenario S1 expects for `play c4`. -/
def single_note_track : List TrackEvent := [send_c4, TrackEvent.Wait one_tick, TrackEvent.End]

/-- The song `loop k { play c4 }`. -/
def song_loop (k : Nat) : List LangItem :=
  [LangItem.Loop (some k) [LangItem.NotePress line_c4]]

/-- The track the compiler assembles for `loop { play c4 }` whose
trailing jump carries counter `cnt`. -/
def loop_track (cnt : Nat) : List TrackEvent :=
  [send_c4, TrackEvent.Wait one_tick, TrackEvent.Jump 0 (some cnt), TrackEvent.End]

/-- `nanos_per_tick` of the default 120/32 signature. -/
def default_tick_nanos : Nat := 15625000

/-- Nondecreasing check over a pitch list — the claim's "each emitted
note pitch is greater than or equal to its predecessor". -/
def nondecreasing : List Nat → Bool
  | [] => true
  | [_] => true
  | a :: b :: rest => (a ≤ b) && nondecreasing (b :: rest)

/-! ## C5 — `NoteKey` structure -/

/-- C5, counterexample: at root C, `minor(C)` is *not* set-equivalent to
`major(C.shift(-3))` (= A major): the claim's `shift(-3)` direction is
wrong.  (The repo's own test asserts A minor ~ C major, i.e. `shift(+3)`.) -/
theorem notekey_minor_not_major_shift_down3 :
    (NoteKey.minor NoteClass.C).equivalent (NoteKey.major (NoteClass.C.shift (-3))) = false := by
  decide

/-- C5, amended: for every root `r`, `minor(r)` is set-equivalent to
`major(r.shift(3))` (three semitones *up*, the relative major) while
reporting root `r`; and `major(r)` has root `r` and contains exactly the
7 classes at offsets {0,2,4,5,7,9,11} from `r`. -/
theorem notekey_structure_amended : ∀ r : NoteClass,
    (NoteKey.minor r).equivalent (NoteKey.major (r.shift 3)) = true
    ∧ (NoteKey.minor r).root = r
    ∧ (NoteKey.major r).root = r
    ∧ (NoteKey.major r).len = 7
    ∧ ∀ c : NoteClass, ((NoteKey.major r).contains c = true ↔
        c ∈ [r, r.shift 2, r.shift 4, r.shift 5, r.shift 7, r.shift 9, r.shift 11]) := by
  decide

/-! ## C7 — `from_note_octave` and the MIDI-note range -/

/-- C7, counterexample: `from_note_octave(G♯, 9)` builds the `MidiNote`
131-capable value 128, escaping the claimed `0..=127` invariant
(`MidiNote { raw }` is constructed directly, without the `from_raw`
check). -/
theorem from_note_octave_escapes_range :
    (MidiNote.from_note_octave NoteClass.Gs (Octave.mk 9)).raw = 128
    ∧ ¬ (MidiNote.from_note_octave NoteClass.Gs (Octave.mk 9)).raw ≤ 127 := by
  decide

/-- C7, amended: for every class `c` and octave `o ∈ [-1, 9]`,
`from_note_octave` yields exactly `(o+1)*12 + class_index(c)`; the result
is `≤ 127` whenever `o ≤ 8`, and is never more than 131 — but for `o = 9`
with class index ≥ 8 it exceeds 127 (see the counterexample), so the
`0..=127` invariant does not hold for every value this constructor
produces. -/
theorem from_note_octave_amended : ∀ (c : NoteClass) (o : Int), -1 ≤ o → o ≤ 9 →
    (MidiNote.from_note_octave c (Octave.mk o)).raw = (o + 1).toNat * 12 + c.as_u8
    ∧ (o ≤ 8 → (MidiNote.from_note_octave c (Octave.mk o)).raw ≤ 127)
    ∧ (MidiNote.from_note_octave c (Octave.mk o)).raw ≤ 131 := by
  intro c o h1 h2
  have hc : c.as_u8 ≤ 11 := by cases c <;> simp [NoteClass.as_u8]
  have hm : (o + 1) % 256 = o + 1 := Int.emod_eq_of_lt (by omega) (by omega)
  have ht : (o + 1).toNat ≤ 10 := by omega
  simp only [MidiNote.from_note_octave, u8_of_int, Octave.as_raw, hm]
  have h12 : (o + 1).toNat * 12 % 256 = (o + 1).toNat * 12 := Nat.mod_eq_of_lt (by omega)
  rw [h12, Nat.mod_eq_of_lt (by omega)]
  omega

/-- C7 witness: the theorem applied at C, octave 4 (MIDI note 60). -/
theorem from_note_octave_amended_witness :
    (MidiNote.from_note_octave NoteClass.C (Octave.mk 4)).raw
      = ((4 : Int) + 1).toNat * 12 + NoteClass.C.as_u8
    ∧ ((4 : Int) ≤ 8 → (MidiNote.from_note_octave NoteClass.C (Octave.mk 4)).raw ≤ 127)
    ∧ (MidiNote.from_note_octave NoteClass.C (Octave.mk 4)).raw ≤ 131 :=
  from_note_octave_amended NoteClass.C 4 (by norm_num) (by norm_num)

/-! ## C8 — chord pitch monotonicity -/

/-- C8, counterexample: the B-major chord at octave 9 resolves to raw
pitches `[131, 7, 126]` — the octave bump `wrapping_add(12)` wraps 135
past 128 down to 7, so the second emitted pitch is *below* its
predecessor. -/
theorem chord_pitches_wrap_counterexample :
    ((chord_pitches (ChordPress.mk NoteClass.B (Octave.mk 9) ChordKind.Major [])).map
        MidiNote.raw) = [131, 7, 126]
    ∧ nondecreasing ((chord_pitches
        (ChordPress.mk NoteClass.B (Octave.mk 9) ChordKind.Major [])).map MidiNote.raw)
      = false := by
  decide

set_option maxHeartbeats 8000000 in
/-- C8, amended: for every root, chord kind and octave `o ∈ [-1, 7]`
(low enough that no `wrapping_add(12)` bump can pass 127 and wrap), the
emitted pitch sequence is nondecreasing and its first (root) pitch is
`from_note_octave(root, octave)`; at octaves 8 and 9 the wrap can break
monotonicity (see the counterexample).  The pitch walk depends only on
the press's root, octave and kind, so the modifier list is empty here
without loss of generality. -/
theorem chord_pitches_monotone_amended :
    ∀ (root : NoteClass) (kind : ChordKind) (o : Int), -1 ≤ o → o ≤ 7 →
    nondecreasing ((chord_pitches (ChordPress.mk root (Octave.mk o) kind [])).map
        MidiNote.raw) = true
    ∧ (chord_pitches (ChordPress.mk root (Octave.mk o) kind [])).head?
      = some (MidiNote.from_note_octave root (Octave.mk o)) := by
  have key : ∀ n : Nat, n < 9 → ∀ (root : NoteClass) (kind : ChordKind),
      nondecreasing ((chord_pitches
          (ChordPress.mk root (Octave.mk ((n : Int) - 1)) kind [])).map MidiNote.raw) = true
      ∧ (chord_pitches (ChordPress.mk root (Octave.mk ((n : Int) - 1)) kind [])).head?
        = some (MidiNote.from_note_octave root (Octave.mk ((n : Int) - 1))) := by
    decide
  intro root kind o h1 h2
  have h3 := key (o + 1).toNat (by omega) root kind
  have ho : (((o + 1).toNat : Int)) - 1 = o := by omega
  rw [ho] at h3
  exact h3

/-- C8 witness: the theorem applied to the C-major chord at octave 4
(scenario S2: pitches 60, 64, 67). -/
theorem chord_pitches_monotone_amended_witness :
    nondecreasing ((chord_pitches (ChordPress.mk NoteClass.C (Octave.mk 4) ChordKind.Major [])).map
        MidiNote.raw) = true
    ∧ (chord_pitches (ChordPress.mk NoteClass.C (Octave.mk 4) ChordKind.Major [])).head?
      = some (MidiNote.from_note_octave NoteClass.C (Octave.mk 4)) :=
  chord_pitches_monotone_amended NoteClass.C ChordKind.Major 4 (by norm_num) (by norm_num)

/-- On arguments below the `u16` overflow threshold the clamp is just a
`max` with 1. -/
theorem clamped_to_nonzerou16_le (x : Nat) (h : x ≤ 65535) :
    clamped_to_nonzerou16 x = max 1 x := by
  unfold clamped_to_nonzerou16
  have hng : ¬ x > 65535 := by omega
  by_cases h0 : x = 0
  · subst h0; simp
  · have h1 : max 1 x = x := by omega
    simp [hng, h0, h1]

/-! ## C6 — `Beats(n).as_ticks` -/

/-- C6, counterexample: at the default signature (32 ticks per beat),
`Beats(2048).as_ticks` is 1, not the claimed clamp value 65535: the
`u16 × u16` product `2048 * 32 = 65536` wraps to 0 *before* the clamp,
and the zero branch of `clamped_to_nonzerou16` then yields 1. -/
theorem beats_as_ticks_overflow_counterexample :
    (WaitTime.Beats 2048).as_ticks BpmInfo.default = 1
    ∧ min 65535 (max 1 (2048 * BpmInfo.default.ticks_per_beat)) = 65535
    ∧ (1 : Nat) ≠ 65535 := by
  decide

/-- C6, amended: for `u16`-ranged inputs, `Beats(n).as_ticks(b)` equals
`max 1 ((n * ticks_per_beat) mod 2^16)` — the `u16` product wraps before
the clamp (whose upper branch is therefore dead) — and in particular
equals `n * ticks_per_beat` exactly whenever that product is at most
65535. -/
theorem beats_as_ticks_amended :
    ∀ (b : BpmInfo) (n : Nat), 1 ≤ n → n ≤ 65535 →
      1 ≤ b.ticks_per_beat → b.ticks_per_beat ≤ 65535 →
    (WaitTime.Beats n).as_ticks b = max 1 (n * b.ticks_per_beat % 65536)
    ∧ (n * b.ticks_per_beat ≤ 65535 →
        (WaitTime.Beats n).as_ticks b = n * b.ticks_per_beat) := by
  intro b n h1 h2 h3 h4
  have hpos : 0 < n * b.ticks_per_beat := Nat.mul_pos (by omega) (by omega)
  simp only [WaitTime.as_ticks]
  constructor
  · exact clamped_to_nonzerou16_le _ (by omega)
  · intro h5
    rw [Nat.mod_eq_of_lt (by omega), clamped_to_nonzerou16_le _ (by omega)]
    omega

/-- C6 witness: the theorem applied at the default signature with
`n = 3` (no overflow: `3 * 32 = 96`). -/
theorem beats_as_ticks_amended_witness :
    (WaitTime.Beats 3).as_ticks BpmInfo.default
      = max 1 (3 * BpmInfo.default.ticks_per_beat % 65536)
    ∧ (3 * BpmInfo.default.ticks_per_beat ≤ 65535 →
        (WaitTime.Beats 3).as_ticks BpmInfo.default = 3 * BpmInfo.default.ticks_per_beat) :=
  beats_as_ticks_amended BpmInfo.default 3 (by decide) (by decide) (by decide) (by decide)

/-! ## C9 — wait-time round trip -/

/-- C9, confirmed: for every `u16`-valued `BpmInfo` and every tick count
`n ∈ [1, 65535]`, converting `Ticks(n)` to a clock duration and back
through `as_ticks` recovers exactly `n` (the division
`(nanos_per_tick · n) / nanos_per_tick` is exact, so the round trip
never drifts — the claim's "floors, never exceeds" caveat is vacuous
here). -/
theorem ticks_duration_roundtrip :
    ∀ (b : BpmInfo) (n : Nat),
      1 ≤ b.beats_per_minute → b.beats_per_minute ≤ 65535 →
      1 ≤ b.ticks_per_beat → b.ticks_per_beat ≤ 65535 →
      1 ≤ n → n ≤ 65535 →
    (WaitTime.Clock ((WaitTime.Ticks n).as_duration b)).as_ticks b = n := by
  intro b n hb1 hb2 ht1 ht2 hn1 hn2
  have hnpb_lb : 915525 ≤ b.nanos_per_beat := by
    have hmul : 915525 * b.beats_per_minute ≤ NANOS_PER_MINUTE := by
      calc 915525 * b.beats_per_minute ≤ 915525 * 65535 :=
            Nat.mul_le_mul_left 915525 hb2
        _ ≤ NANOS_PER_MINUTE := by norm_num [NANOS_PER_MINUTE]
    exact (Nat.le_div_iff_mul_le (by omega)).mpr hmul
  have hnpb_ub : b.nanos_per_beat ≤ 60000000000 := by
    have := Nat.div_le_self NANOS_PER_MINUTE b.beats_per_minute
    simpa [BpmInfo.nanos_per_beat, NANOS_PER_MINUTE] using this
  have hnpt_lb : 0 < b.nanos_per_tick := by
    have h13 : 13 * b.ticks_per_beat ≤ b.nanos_per_beat := by
      calc 13 * b.ticks_per_beat ≤ 13 * 65535 := Nat.mul_le_mul_left 13 ht2
        _ ≤ 915525 := by norm_num
        _ ≤ b.nanos_per_beat := hnpb_lb
    have h13' : 13 ≤ b.nanos_per_tick := (Nat.le_div_iff_mul_le (by omega)).mpr h13
    omega
  have hnpt_ub : b.nanos_per_tick ≤ 60000000000 :=
    le_trans (Nat.div_le_self _ _) hnpb_ub
  have hprod : b.nanos_per_tick * n < U64_MOD := by
    have hle : b.nanos_per_tick * n ≤ 60000000000 * 65535 :=
      Nat.mul_le_mul hnpt_ub hn2
    calc b.nanos_per_tick * n ≤ 60000000000 * 65535 := hle
      _ < U64_MOD := by norm_num [U64_MOD]
  simp only [WaitTime.as_duration, WaitTime.as_ticks, BpmInfo.tick_duration]
  rw [Nat.mod_eq_of_lt hprod, Nat.mul_div_cancel_left n hnpt_lb,
    clamped_to_nonzerou16_le n (by omega)]
  omega

/-- C9 witness: the theorem applied at the signature 97/13 with
`n = 37`. -/
theorem ticks_duration_roundtrip_witness :
    (WaitTime.Clock ((WaitTime.Ticks 37).as_duration (BpmInfo.mk 97 13))).as_ticks
      (BpmInfo.mk 97 13) = 37 :=
  ticks_duration_roundtrip (BpmInfo.mk 97 13) 37 (by decide) (by decide) (by decide)
    (by decide) (by decide) (by decide)

/-! ## Cursor-run helper lemmas -/

/-- At an `End` instruction `step` returns `End` and leaves the whole
cursor untouched (the source deliberately does not advance the
instruction pointer). -/
theorem step_at_end (c : TrackCursor)
    (h : c.data.get? c.instruction_pointer = some TrackEvent.End) :
    c.step = .ok (.End, c) := by
  unfold TrackCursor.step
  rw [h]

/-- A cursor parked on `End` emits nothing from `step_until`, whatever
the fuel and window. -/
theorem step_until_go_at_end (fuel endt : Nat) (c : TrackCursor)
    (h : c.data.get? c.instruction_pointer = some TrackEvent.End) :
    step_until_go fuel c endt = .ok [] := by
  cases fuel with
  | zero => rfl
  | succ f =>
    unfold step_until_go
    rw [step_at_end c h]
    simp

/-- Unfolding `step_until` one message-emitting step. -/
theorem step_until_go_message (fuel endt : Nat) (c c2 : TrackCursor)
    (t : Nat) (p : OutputPort) (m : MidiMessage)
    (hle : ¬ c.cur_time > endt) (hstep : c.step = .ok (.Message t p m, c2)) :
    step_until_go (fuel + 1) c endt
      = (step_until_go fuel c2 endt).map fun rest => (t, p, m) :: rest := by
  simp only [step_until_go]
  rw [if_neg hle, hstep]

/-- Unfolding `step_until` one silent (`Continue`) step. -/
theorem step_until_go_continue (fuel endt : Nat) (c c2 : TrackCursor)
    (hle : ¬ c.cur_time > endt) (hstep : c.step = .ok (.Continue, c2)) :
    step_until_go (fuel + 1) c endt = step_until_go fuel c2 endt := by
  simp only [step_until_go]
  rw [if_neg hle, hstep]

/-! ## C10 — `End` is a fixpoint of the cursor -/

/-- C10, confirmed: when the instruction pointer rests on `End`, `step`
returns `End` with the cursor state bitwise unchanged (same instruction
pointer, BPM, clock, tick count and jump counters) — hence every
subsequent `step` also returns `End` — and `step_until` yields no
messages for any window and any amount of fuel. -/
theorem end_event_is_fixpoint :
    ∀ c : TrackCursor, c.data.get? c.instruction_pointer = some TrackEvent.End →
    c.step = .ok (.End, c)
    ∧ ∀ fuel endt : Nat, c.step_until fuel endt = .ok [] :=
  fun c h => ⟨step_at_end c h, fun fuel endt => step_until_go_at_end fuel endt c h⟩

/-- C10 witness: a fresh cursor on the one-event track `[End]`. -/
theorem end_event_is_fixpoint_witness :
    (TrackCursor.new [TrackEvent.End]).step
      = .ok (.End, TrackCursor.new [TrackEvent.End])
    ∧ (TrackCursor.new [TrackEvent.End]).step_until 7 12345 = .ok [] :=
  ⟨(end_event_is_fixpoint (TrackCursor.new [TrackEvent.End]) rfl).1,
   (end_event_is_fixpoint (TrackCursor.new [TrackEvent.End]) rfl).2 7 12345⟩

/-! ## C1 — scenario S1, `play c4` -/

/-- C1: the claim is what the compiler *means* to do, and the assembled
track indeed is `[SendMessage(NoteOn ch0 n60 v90, port0), Wait(Ticks 1),
End]` with the cursor emitting exactly one message at time 0 over the
window `[0, 1 tick]` — but `compile_song` itself never returns it: the
press line recorded a tick span, so the `todo!()` inside
`Compiler::resolve_tickspans` panics. -/
theorem single_note_compile_panics :
    compile_song song_c4 = .error (.panicked "not yet implemented")
    ∧ (compile_song_assembled song_c4).map Compiler.track = .ok single_note_track
    ∧ ∀ f : Nat,
        (TrackCursor.new single_note_track).step_until (f + 3)
            (one_tick.as_duration BpmInfo.default)
          = .ok [(0, OutputPort.mk 0, msg_c4)] := by
  refine ⟨rfl, rfl, ?_⟩
  intro f
  show step_until_go (f + 3) (TrackCursor.new single_note_track) 15625000
      = .ok [(0, OutputPort.mk 0, msg_c4)]
  have h1 : step_until_go (f + 3) (TrackCursor.new single_note_track) 15625000
      = (step_until_go (f + 1)
          (TrackCursor.mk 2 BpmInfo.default 15625000 1 (JumpCounts.mk 2 []) single_note_track)
          15625000).map
        (fun rest => (0, OutputPort.mk 0, msg_c4) :: rest) := rfl
  rw [h1, step_until_go_at_end (f + 1) 15625000
    (TrackCursor.mk 2 BpmInfo.default 15625000 1 (JumpCounts.mk 2 []) single_note_track) rfl]
  rfl

/-! ## C2 — loop repetition count -/

/-- `step` on the loop track at the `SendMessage` instruction. -/
theorem loop_step_send (cnt t s : Nat) (jd : List (Nat × Nat)) :
    (TrackCursor.mk 0 BpmInfo.default t s (JumpCounts.mk 3 jd) (loop_track cnt)).step
      = .ok (.Message t (OutputPort.mk 0) msg_c4,
          TrackCursor.mk 1 BpmInfo.default t s (JumpCounts.mk 3 jd) (loop_track cnt)) := rfl

/-- The one-tick wait is 15625000 ns at the default 120/32 signature. -/
theorem one_tick_duration_default :
    one_tick.as_duration BpmInfo.default = default_tick_nanos := rfl

/-- The one-tick wait is one tick at any signature. -/
theorem one_tick_ticks_default : one_tick.as_ticks BpmInfo.default = 1 := rfl

/-- `step` on the loop track at the `Wait(Ticks 1)` instruction: the
clock advances one default tick, the tick counter one tick. -/
theorem loop_step_wait (cnt t s : Nat) (jd : List (Nat × Nat)) :
    (TrackCursor.mk 1 BpmInfo.default t s (JumpCounts.mk 3 jd) (loop_track cnt)).step
      = .ok (.Continue,
          TrackCursor.mk 2 BpmInfo.default (t + one_tick.as_duration BpmInfo.default)
            ((s + one_tick.as_ticks BpmInfo.default) % 65536)
            (JumpCounts.mk 3 jd) (loop_track cnt)) := rfl

/-- `step` at the counted jump with a positive residual: decrement and
jump back to index 0. -/
theorem loop_step_jump_taken (cnt t s j : Nat) :
    (TrackCursor.mk 2 BpmInfo.default t s (JumpCounts.mk 3 [(2, j + 1)]) (loop_track cnt)).step
      = .ok (.Continue,
          TrackCursor.mk 0 BpmInfo.default t s (JumpCounts.mk 3 [(2, j)]) (loop_track cnt)) := rfl

/-- `step` at the counted jump with residual 0: reset the counter to the
instruction's count and fall through to index 3. -/
theorem loop_step_jump_reset (cnt t s : Nat) :
    (TrackCursor.mk 2 BpmInfo.default t s (JumpCounts.mk 3 [(2, 0)]) (loop_track cnt)).step
      = .ok (.Continue,
          TrackCursor.mk 3 BpmInfo.default t s (JumpCounts.mk 3 [(2, cnt)]) (loop_track cnt)) := rfl

/-- Running the loop track from index 0 with jump residual `j` emits
exactly `j + 1` messages before hitting `End`, given enough fuel and a
window that covers the run. -/
theorem loop_track_run (cnt : Nat) :
    ∀ j t s fuel endt : Nat, 3 * j + 4 ≤ fuel →
      t + (j + 1) * default_tick_nanos ≤ endt →
    (step_until_go fuel
        (TrackCursor.mk 0 BpmInfo.default t s (JumpCounts.mk 3 [(2, j)]) (loop_track cnt))
        endt).map List.length
      = .ok (j + 1) := by
  intro j
  induction j with
  | zero =>
    intro t s fuel endt hf he
    simp only [default_tick_nanos] at he
    obtain ⟨f, rfl⟩ : ∃ f, fuel = f + 1 + 1 + 1 + 1 := ⟨fuel - 4, by omega⟩
    rw [step_until_go_message _ _ _ _ _ _ _ (show ¬ t > endt by omega)
          (loop_step_send cnt t s [(2, 0)]),
        step_until_go_continue _ _ _ _ (show ¬ t > endt by omega)
          (loop_step_wait cnt t s [(2, 0)]),
        one_tick_duration_default, one_tick_ticks_default,
        step_until_go_continue _ _ _ _
          (show ¬ t + default_tick_nanos > endt by
            simp only [default_tick_nanos]; omega)
          (loop_step_jump_reset cnt (t + default_tick_nanos) ((s + 1) % 65536)),
        step_until_go_at_end (f + 1) endt
          (TrackCursor.mk 3 BpmInfo.default (t + default_tick_nanos) ((s + 1) % 65536)
            (JumpCounts.mk 3 [(2, cnt)]) (loop_track cnt)) rfl]
    rfl
  | succ j ih =>
    intro t s fuel endt hf he
    simp only [default_tick_nanos] at he
    obtain ⟨f, rfl⟩ : ∃ f, fuel = f + 1 + 1 + 1 := ⟨fuel - 3, by omega⟩
    rw [step_until_go_message _ _ _ _ _ _ _ (show ¬ t > endt by omega)
          (loop_step_send cnt t s [(2, j + 1)]),
        step_until_go_continue _ _ _ _ (show ¬ t > endt by omega)
          (loop_step_wait cnt t s [(2, j + 1)]),
        one_tick_duration_default, one_tick_ticks_default,
        step_until_go_continue _ _ _ _
          (show ¬ t + default_tick_nanos > endt by
            simp only [default_tick_nanos]; omega)
          (loop_step_jump_taken cnt (t + default_tick_nanos) ((s + 1) % 65536) j)]
    have hrec := ih (t + default_tick_nanos) ((s + 1) % 65536) f endt (by omega)
      (by simp only [default_tick_nanos]; omega)
    cases hres : step_until_go f
        (TrackCursor.mk 0 BpmInfo.default (t + default_tick_nanos) ((s + 1) % 65536)
          (JumpCounts.mk 3 [(2, j)]) (loop_track cnt)) endt with
    | error e => rw [hres] at hrec; simp [Except.map] at hrec
    | ok l =>
      rw [hres] at hrec
      simp only [Except.map, Except.ok.injEq] at hrec ⊢
      simp [hrec]

/-- C2, counterexample: at `k = 1` the compiler emits `Jump { count:
max(1−1, 1) = 1 }`, so the loop body plays twice — the assembled track
emits 2 note-ons, not 1 (and `compile_song` itself panics in
`resolve_tickspans` because of the press line, so the claim fails for
every `k` as literally stated). -/
theorem loop_once_counterexample :
    compile_song (song_loop 1) = .error (.panicked "not yet implemented")
    ∧ (compile_song_assembled (song_loop 1)).map Compiler.track = .ok (loop_track 1)
    ∧ ((TrackCursor.new (loop_track 1)).step_until 20 1000000000).map List.length = .ok 2
    ∧ (2 : Nat) ≠ 1 := by
  refine ⟨rfl, rfl, rfl, by omega⟩

/-- C2, amended: for every `k ∈ [2, 65535]` the compiler assembles the
track `[NoteOn, Wait(Ticks 1), Jump{target 0, count k−1}, End]` for
`Loop { body = [NotePress(c4)], repetitions = Some(k) }`, and a cursor
run over any window covering the whole loop emits exactly `k` note-on
messages (`compile_song` itself still panics in the
unimplemented tick-span pass, as recorded in the counterexample; at
`k = 1` the emitted count is `max(k−1, 1) = 1` and the body plays
twice). -/
theorem loop_repetition_amended :
    ∀ k : Nat, 2 ≤ k → k ≤ 65535 →
    (compile_song_assembled (song_loop k)).map Compiler.track = .ok (loop_track (k - 1))
    ∧ compile_song (song_loop k) = .error (.panicked "not yet implemented")
    ∧ ∀ fuel endt : Nat, 3 * k + 1 ≤ fuel → k * default_tick_nanos ≤ endt →
        ((TrackCursor.new (loop_track (k - 1))).step_until fuel endt).map List.length
          = .ok k := by
  intro k hk2 hk65535
  have hmax : max (k - 1) 1 = k - 1 := by omega
  refine ⟨?_, rfl, ?_⟩
  · have h : (compile_song_assembled (song_loop k)).map Compiler.track
        = .ok (loop_track (max (k - 1) 1)) := rfl
    rw [hmax] at h
    exact h
  · intro fuel endt hf he
    have hrun := loop_track_run (k - 1) (k - 1) 0 0 fuel endt (by omega)
      (by simp only [default_tick_nanos] at he ⊢
          omega)
    rw [show k - 1 + 1 = k by omega] at hrun
    exact hrun

/-- C2 witness: the amended theorem at `k = 3` (three note-ons). -/
theorem loop_repetition_amended_witness :
    (compile_song_assembled (song_loop 3)).map Compiler.track = .ok (loop_track (3 - 1))
    ∧ ((TrackCursor.new (loop_track (3 - 1))).step_until 10 46875000).map List.length
      = .ok 3 :=
  ⟨(loop_repetition_amended 3 (by norm_num) (by norm_num)).1,
   (loop_repetition_amended 3 (by norm_num) (by norm_num)).2.2 10 46875000
     (by norm_num) (by decide)⟩

/-! ## C3 — duplicate attributes -/

/-- C3, counterexample: two *equal* `Signature` attributes compile
successfully — the second one is silently swallowed by the
`Some(SetBpm(old)) if new_bpm == Some(old)` guard of
`encounter_setattr` — so "the same attribute kind set twice fails with
`DuplicateAttributes`" is false for signatures. -/
theorem duplicate_signature_counterexample :
    compile_song
        [LangItem.SetAttribute (.Signature BpmInfo.default),
         LangItem.SetAttribute (.Signature BpmInfo.default)]
      = .ok ([TrackEvent.SetBpm BpmInfo.default, TrackEvent.End], [])
    ∧ ∀ a1 a2 : SongAttribute,
      compile_song
          [LangItem.SetAttribute (.Signature BpmInfo.default),
           LangItem.SetAttribute (.Signature BpmInfo.default)]
        ≠ .error (.err (.DuplicateAttributes a1 a2)) := by
  refine ⟨rfl, ?_⟩
  intro a1 a2 h
  exact Except.noConfusion h

/-- C3, amended: a duplicated *non-Signature* attribute kind fails with
`DuplicateAttributes` while the header is open (track empty, or holding
only the leading signature `SetBpm`); a duplicated `Signature` never
does — it is silently ignored when equal to the first and fails with
`AttributeOutsideHeader` when different. -/
theorem duplicate_attributes_amended :
    (∀ x y : WaitTime,
      compile_song [LangItem.SetAttribute (.DefaultDuration x),
          LangItem.SetAttribute (.DefaultDuration y)]
        = .error (.err (.DuplicateAttributes (.DefaultDuration x) (.DefaultDuration y))))
    ∧ (∀ x y : MidiChannel,
      compile_song [LangItem.SetAttribute (.DefaultChannel x),
          LangItem.SetAttribute (.DefaultChannel y)]
        = .error (.err (.DuplicateAttributes (.DefaultChannel x) (.DefaultChannel y))))
    ∧ (∀ x y : PressVelocity,
      compile_song [LangItem.SetAttribute (.DefaultPressVelocity x),
          LangItem.SetAttribute (.DefaultPressVelocity y)]
        = .error (.err (.DuplicateAttributes (.DefaultPressVelocity x)
            (.DefaultPressVelocity y))))
    ∧ (∀ x y : OutputLabel,
      compile_song [LangItem.SetAttribute (.DefaultPort x),
          LangItem.SetAttribute (.DefaultPort y)]
        = .error (.err (.DuplicateAttributes (.DefaultPort x) (.DefaultPort y))))
    ∧ (∀ (b : BpmInfo) (x y : MidiChannel),
      compile_song [LangItem.SetAttribute (.Signature b),
          LangItem.SetAttribute (.DefaultChannel x), LangItem.SetAttribute (.DefaultChannel y)]
        = .error (.err (.DuplicateAttributes (.DefaultChannel x) (.DefaultChannel y))))
    ∧ (∀ b : BpmInfo,
      compile_song [LangItem.SetAttribute (.Signature b), LangItem.SetAttribute (.Signature b)]
        = .ok ([TrackEvent.SetBpm b, TrackEvent.End], []))
    ∧ (∀ b1 b2 : BpmInfo, b1 ≠ b2 →
      compile_song [LangItem.SetAttribute (.Signature b1),
          LangItem.SetAttribute (.Signature b2)]
        = .error (.err (.AttributeOutsideHeader (.Signature b2)))) := by
  refine ⟨fun x y => rfl, fun x y => rfl, fun x y => rfl, fun x y => rfl,
    fun b x y => rfl, ?_, ?_⟩
  · intro b
    simp [compile_song, compile_song_assembled, Compiler.compile_items, Compiler.compile_item,
      Compiler.encounter_setattr, SongAttributes.push_attribute, Compiler.resolve_jumps,
      resolve_jumps_go, Compiler.resolve_tickspans, Compiler.new, Except.mapError]
  · intro b1 b2 hne
    have hne2 : b2 ≠ b1 := Ne.symm hne
    simp [compile_song, compile_song_assembled, Compiler.compile_items, Compiler.compile_item,
      Compiler.encounter_setattr, SongAttributes.push_attribute, Compiler.new, hne2,
      Except.mapError, Compiler.resolve_jumps, resolve_jumps_go, Compiler.resolve_tickspans]

/-- C3 witness: a duplicated default-duration errors with
`DuplicateAttributes`; two different signatures error with
`AttributeOutsideHeader`. -/
theorem duplicate_attributes_amended_witness :
    compile_song [LangItem.SetAttribute (.DefaultDuration one_tick),
        LangItem.SetAttribute (.DefaultDuration (WaitTime.Beats 2))]
      = .error (.err (.DuplicateAttributes (.DefaultDuration one_tick)
          (.DefaultDuration (WaitTime.Beats 2))))
    ∧ compile_song [LangItem.SetAttribute (.Signature (BpmInfo.mk 100 32)),
        LangItem.SetAttribute (.Signature BpmInfo.default)]
      = .error (.err (.AttributeOutsideHeader (.Signature BpmInfo.default))) :=
  ⟨duplicate_attributes_amended.1 one_tick (WaitTime.Beats 2),
   duplicate_attributes_amended.2.2.2.2.2.2 (BpmInfo.mk 100 32) BpmInfo.default (by decide)⟩

/-! ## C4 — attributes outside the header -/

/-- C4, counterexample: a `DefaultChannel` attribute arriving *after*
an emitted `Send` event is accepted, because `encounter_setattr` only
inspects the *first* track event (here the leading signature `SetBpm`),
not whether any later event has been emitted.  The claim's
`AttributeOutsideHeader` failure does not occur. -/
theorem attribute_after_event_accepted_counterexample :
    compile_song
        [LangItem.SetAttribute (.Signature BpmInfo.default),
         LangItem.Asm (.Send msg_c4 none),
         LangItem.SetAttribute (.DefaultChannel (MidiChannel.mk 5))]
      = .ok ([TrackEvent.SetBpm BpmInfo.default,
              TrackEvent.SendMessage msg_c4 (OutputPort.mk 0), TrackEvent.End],
             [(none, OutputPort.mk 0)])
    ∧ ∀ a : SongAttribute,
      compile_song
          [LangItem.SetAttribute (.Signature BpmInfo.default),
           LangItem.Asm (.Send msg_c4 none),
           LangItem.SetAttribute (.DefaultChannel (MidiChannel.mk 5))]
        ≠ .error (.err (.AttributeOutsideHeader a)) := by
  refine ⟨rfl, ?_⟩
  intro a h
  exact Except.noConfusion h

/-- C4, amended: the header discipline is keyed on the *first* compiled
event only.  An attribute fails with `AttributeOutsideHeader` exactly
when the first track event exists and is not a `SetBpm`, or when it is
the leading `SetBpm` and the attribute is a `Signature` with a different
`BpmInfo`; a non-Signature attribute arriving while the track still
*starts* with the signature's `SetBpm` is accepted even if other events
have been emitted after it (see the counterexample). -/
theorem attribute_outside_header_amended :
    (∀ (c : Compiler) (attr : SongAttribute) (e : TrackEvent),
      c.track.head? = some e → (∀ b, e ≠ TrackEvent.SetBpm b) →
      c.encounter_setattr attr = .error (.AttributeOutsideHeader attr))
    ∧ (∀ (c : Compiler) (b b2 : BpmInfo),
      c.track.head? = some (TrackEvent.SetBpm b) → b2 ≠ b →
      c.encounter_setattr (.Signature b2)
        = .error (.AttributeOutsideHeader (.Signature b2))) := by
  constructor
  · intro c attr e h hne
    unfold Compiler.encounter_setattr
    rw [h]
    cases e with
    | SetBpm b => exact absurd rfl (hne b)
    | SendMessage m p => rfl
    | Wait w => rfl
    | Jump t cnt => rfl
    | End => rfl
  · intro c b b2 hfirst hne
    have hbne : b2 ≠ b := hne
    unfold Compiler.encounter_setattr
    rw [hfirst]
    simp [hbne]

/-- C4 witness: the amended header rule applied to a concrete compiler
whose track starts with a `Wait`, and to one starting with the default
signature's `SetBpm` receiving a different signature. -/
theorem attribute_outside_header_amended_witness :
    ({ track := [TrackEvent.Wait one_tick] } : Compiler).encounter_setattr
        (.DefaultChannel (MidiChannel.mk 5))
      = .error (.AttributeOutsideHeader (.DefaultChannel (MidiChannel.mk 5)))
    ∧ ({ track := [TrackEvent.SetBpm BpmInfo.default] } : Compiler).encounter_setattr
        (.Signature (BpmInfo.mk 100 32))
      = .error (.AttributeOutsideHeader (.Signature (BpmInfo.mk 100 32))) :=
  ⟨attribute_outside_header_amended.1 _ _ _ rfl (fun b => by simp),
   attribute_outside_header_amended.2 _ BpmInfo.default (BpmInfo.mk 100 32) rfl (by decide)⟩

end Redes
